import Mathlib

set_option maxRecDepth 2048

/-!
Verification development for the MetaFlux browser catalog viewer.

The JavaScript sources are shallowly embedded:
* JSON input records become Lean structures whose fields are `Option`-valued
  (`none` models an absent / `undefined` field).
* The JavaScript `a || b` defaulting idiom is translated by `jsOrStr` /
  `jsOrNum` / `Option.getD` according to the JavaScript truthiness of the
  field's type (empty string and the number 0 are falsy; objects and arrays
  are always truthy).
* JSON numbers are modelled as exact rationals (`Rat`).
* Strings are Lean `String`s; `String.take` models `String.prototype.slice`
  with a zero start index on the ASCII strings that occur here.
* Asynchronous fetches are oracles passed as function arguments: a discovery
  run takes a probe oracle `String → ProbeOutcome`, and a viewer render takes
  the outcome of the mesh load as an `Except` value.
* All embedded operations are total Lean functions, which captures that the
  corresponding JavaScript paths return normally instead of throwing.
-/

/-! ## Domain models (app/models/design.js, app/models/paper.js) -/

/-- One author entry of a paper record (`{name}` objects). -/
structure Author where
  name : String
deriving DecidableEq, Repr

/-- JavaScript `v || d` for a possibly-absent string field: an absent field
and the empty string are falsy, every other string is truthy. -/
def jsOrStr (v : Option String) (d : String) : String :=
  match v with
  | some s => if s = "" then d else s
  | none => d

/-- JavaScript `v || d` for a possibly-absent number field: an absent field
and the number 0 are falsy, every other number is truthy. -/
def jsOrNum (v : Option Rat) (d : Rat) : Rat :=
  match v with
  | some q => if q = 0 then d else q
  | none => d

/-- The nested `openAccessPdf` object of a paper input record. -/
structure OpenAccessPdf where
  url : Option String := none
deriving DecidableEq, Repr

/-- Untyped paper input record (one element of `data/papers.json`), with every
field optional.  The `year` field is modelled as a string field; no claim
depends on a numeric year. -/
structure PaperData where
  paperId : Option String := none
  id : Option String := none
  title : Option String := none
  year : Option String := none
  authors : Option (List Author) := none
  venue : Option String := none
  citationCount : Option Rat := none
  url : Option String := none
  pdf_path : Option String := none
  openAccessPdf : Option OpenAccessPdf := none
  extracted_params : Option (List (String × Rat)) := none
  relevance_score : Option Rat := none
deriving DecidableEq, Repr

/-- The `Paper` model (app/models/paper.js). -/
structure Paper where
  id : String
  title : String
  year : String
  authors : List Author
  venue : String
  citationCount : Rat
  url : String
  pdf : String
  extracted : List (String × Rat)
  score : Rat
deriving DecidableEq, Repr

/-- The `Paper` constructor (app/models/paper.js, lines 4-15), field by field:
`this.id = data.paperId || data.id || ''`, `this.citationCount =
data.citationCount || 0`, `this.pdf = data.pdf_path || (data.openAccessPdf &&
data.openAccessPdf.url) || ''`, and so on. -/
def Paper.ofData (data : PaperData) : Paper where
  id := jsOrStr data.paperId (jsOrStr data.id "")
  title := jsOrStr data.title ""
  year := jsOrStr data.year ""
  authors := data.authors.getD []
  venue := jsOrStr data.venue ""
  citationCount := jsOrNum data.citationCount 0
  url := jsOrStr data.url ""
  pdf := jsOrStr data.pdf_path
    (jsOrStr (match data.openAccessPdf with
              | some o => o.url
              | none => none) "")
  extracted := data.extracted_params.getD []
  score := jsOrNum data.relevance_score 0

/-- `Number.prototype.toFixed(1)`: the sign of the value, then the integer `n`
minimising the distance of `n / 10` to the absolute value (ties resolved
towards the larger `n`, hence the floor of `10x + 1/2`), printed with one
digit after the decimal point. -/
def toFixed1 (q : Rat) : String :=
  let sign := if q < 0 then "-" else ""
  let x := |q|
  let n : Nat := (⌊x * 10 + 1/2⌋).toNat
  sign ++ toString (n / 10) ++ "." ++ toString (n % 10)

/-- The `displayScore` getter (app/models/paper.js, lines 26-28):
`this.score ? ` followed by the bracketed `toFixed(1)` rendering, else the
empty string. -/
def Paper.displayScore (p : Paper) : String :=
  if p.score = 0 then "" else "[" ++ toFixed1 p.score ++ "]"

/-- Untyped design metadata input record (a per-artifact JSON file), with
every field optional. -/
structure DesignData where
  paper_id : Option String := none
  paper_title : Option String := none
  geometry_type : Option String := none
  parameters : Option (List (String × Rat)) := none
  file_path : Option String := none
  generated_at : Option String := none
  manufacturing_method : Option String := none
  scale : Option String := none
deriving DecidableEq, Repr

/-- The `Design` model (app/models/design.js). -/
structure Design where
  paperId : String
  title : String
  geometryType : String
  parameters : List (String × Rat)
  filePath : String
  generatedAt : String
  manufacturing : String
  scale : String
deriving DecidableEq, Repr

/-- The `Design` constructor (app/models/design.js, lines 4-13); the second
argument defaults to the empty string, and `this.filePath = filePath ||
data.file_path || ''`. -/
def Design.ofData (data : DesignData) (filePath : String := "") : Design where
  paperId := jsOrStr data.paper_id ""
  title := jsOrStr data.paper_title ""
  geometryType := jsOrStr data.geometry_type ""
  parameters := data.parameters.getD []
  filePath := jsOrStr (some filePath) (jsOrStr data.file_path "")
  generatedAt := jsOrStr data.generated_at ""
  manufacturing := jsOrStr data.manufacturing_method ""
  scale := jsOrStr data.scale ""

/-! ## Catalog discovery (app/views/designs.js, `loadDesigns`) -/

/-- The fixed folder identifiers of `loadDesigns` (lines 33-36). -/
def folders : List String :=
  ["A_3D-Printed_Metallic-Free_Water-Based_Metamateria",
   "Tunable_3D_printed_composite_metamaterials_with_ne",
   "Additively_Manufactured_Mechanical_MetamaterialBas"]

/-- The version indices of the loop `for (let v = 1; v <= 3; ++v)`. -/
def versions : List Nat := [1, 2, 3]

/-- The fixed geometry-type tags (line 40). -/
def types : List String :=
  ["patch_antenna", "metamaterial_absorber", "split_ring_resonator"]

/-- The period dimension set (line 42). -/
def periods : List Nat := [16, 20, 24, 28, 35, 42]

/-- The height dimension set (line 43). -/
def heights : List Nat := [24, 30, 36, 28, 35, 42]

/-- The candidate-path template of line 44:
the folder, the type, the folder truncated to its first 8 characters
(`folder.slice(0,8)`), the version, and both dimensions. -/
def candidatePath (folder ty : String) (v p h : Nat) : String :=
  "designs/" ++ folder ++ "/" ++ ty ++ "_" ++ folder.take 8 ++ "_v" ++ toString v ++
    "_" ++ toString p ++ "mm_" ++ toString h ++ "mm.json"

/-- The candidate paths enumerated by the five nested loops of `loadDesigns`,
in their exact nesting order: folder, version, type, period, height. -/
def candidates : List String :=
  folders.flatMap fun folder =>
    versions.flatMap fun v =>
      types.flatMap fun ty =>
        periods.flatMap fun p =>
          heights.map fun h => candidatePath folder ty v p h

/-- Outcome of one existence-check fetch: an ok response whose JSON parses
into a design record, a response with `resp.ok` false (e.g. 404), or a
rejected promise (network error, or a body that fails to parse — both reach
the same `catch` and are treated identically by the code). -/
inductive ProbeOutcome
  | success (data : DesignData)
  | notFound
  | networkError
deriving DecidableEq, Repr

/-- The `loadDesigns` run (lines 37-63), parameterised by the probe oracle:
the fold visits every candidate path in enumeration order, records the probe
it issues (first component, the `Trying to fetch` log), and appends
`new Design(data, f)` to `files` exactly when the probe succeeds; every
failing probe leaves `files` unchanged and the loop continues. -/
def loadDesignsRun (probe : String → ProbeOutcome) : List String × List Design :=
  candidates.foldl
    (fun acc f =>
      (acc.1 ++ [f],
       match probe f with
       | ProbeOutcome.success data => acc.2 ++ [Design.ofData data f]
       | _ => acc.2))
    ([], [])

/-- State of the designs list after `loadDesigns().then(...)`
(lines 66-84): zero designs yield the `No designs found.` message, otherwise
the designs are rendered as rows. -/
inductive ListViewState
  | noDesignsFound
  | rendered (items : List Design)
deriving DecidableEq, Repr

/-- The continuation of lines 66-73: `if (!designs.length)` shows the
no-designs message, else the rows. -/
def designsViewResolve (designs : List Design) : ListViewState :=
  if designs.length = 0 then ListViewState.noDesignsFound
  else ListViewState.rendered designs

/-- The mesh-locator derivation of `showDesignDetail` (line 88):
`design.filePath.replace(/\.json$/, '.stl')`.  The anchored regex matches
exactly when the last five characters are `.json`, and the replacement swaps
that suffix for `.stl`, leaving everything else unchanged. -/
def stlPath (fp : String) : String :=
  if fp.data.drop (fp.data.length - 5) = ".json".data
  then String.mk (fp.data.take (fp.data.length - 5) ++ ".stl".data)
  else fp

/-! ## Diagnostics log (app/main.js, `log`) -/

/-- The trim loop of `log` (line 17): `while (consoleDiv.children.length >
10) consoleDiv.removeChild(consoleDiv.firstChild)` — remove the oldest entry
while more than 10 remain. -/
def trimOldest (l : List String) : List String :=
  if 10 < l.length then trimOldest l.tail else l
termination_by l.length
decreasing_by
  cases l with
  | nil => simp at *
  | cons a t => simp

/-- The `log` operation (app/main.js, lines 11-18) on the message list of the
console element: append the new line, then trim oldest-first to at most 10. -/
def log (l : List String) (msg : String) : List String :=
  trimOldest (l ++ [msg])

/-! ## Mesh viewer (app/utils/stl_viewer.js, `STLViewer.render`)

Vectors are triples of exact rationals; geometry is the list of the mesh's
vertex positions.  `computeBoundingBox` and `Box3.getCenter` model the
THREE.js axis-aligned bounding box and its center (the center of an empty
box is the zero vector, as in `THREE.Box3.getCenter`). -/

/-- A 3-component vector with exact rational coordinates. -/
@[ext]
structure Vec3 where
  x : Rat
  y : Rat
  z : Rat
deriving DecidableEq, Repr

instance : Zero Vec3 := ⟨⟨0, 0, 0⟩⟩

instance : Add Vec3 := ⟨fun a b => ⟨a.x + b.x, a.y + b.y, a.z + b.z⟩⟩

instance : Neg Vec3 := ⟨fun a => ⟨-a.x, -a.y, -a.z⟩⟩

instance : Sub Vec3 := ⟨fun a b => ⟨a.x - b.x, a.y - b.y, a.z - b.z⟩⟩

/-- Componentwise minimum (as in `THREE.Vector3.min`). -/
def Vec3.minV (a b : Vec3) : Vec3 := ⟨min a.x b.x, min a.y b.y, min a.z b.z⟩

/-- Componentwise maximum (as in `THREE.Vector3.max`). -/
def Vec3.maxV (a b : Vec3) : Vec3 := ⟨max a.x b.x, max a.y b.y, max a.z b.z⟩

/-- An axis-aligned bounding box, given by its two extreme corners. -/
structure Box3 where
  lo : Vec3
  hi : Vec3
deriving DecidableEq, Repr

/-- `THREE.Box3.getCenter`: the midpoint of the two corners. -/
def Box3.getCenter (b : Box3) : Vec3 :=
  ⟨(b.lo.x + b.hi.x) / 2, (b.lo.y + b.hi.y) / 2, (b.lo.z + b.hi.z) / 2⟩

/-- `geometry.computeBoundingBox()`: the componentwise min/max fold over the
vertices; an empty geometry has no bounding box (`none` models the empty
THREE.js box). -/
def computeBoundingBox (vs : List Vec3) : Option Box3 :=
  match vs with
  | [] => none
  | v :: rest => some (rest.foldl (fun b w => ⟨b.lo.minV w, b.hi.maxV w⟩) ⟨v, v⟩)

/-- The bounding-box center used by `render`; for an empty geometry
`THREE.Box3.getCenter` returns the zero vector. -/
def centerOf (vs : List Vec3) : Vec3 :=
  match computeBoundingBox vs with
  | some b => b.getCenter
  | none => 0

/-- Translate a box by a constant vector. -/
def shiftBox (t : Vec3) (b : Box3) : Box3 := ⟨b.lo + t, b.hi + t⟩

/-- A DOM child of the viewer container relevant to the claims: the WebGL
canvas appended on setup, or the inline error indicator written on a failed
load. -/
inductive DomNode
  | canvas
  | errorIndicator
deriving DecidableEq, Repr

/-- The DOM state threaded through a render call: the viewer container's
children and everything outside the container.  The source of `render` only
ever references `container`, so the embedding threads `outside` untouched. -/
structure World where
  container : List DomNode
  outside : List DomNode
deriving DecidableEq, Repr

/-- A THREE.js mesh as far as the claims are concerned: its geometry and its
`position` translation (a fresh mesh starts at the zero position). -/
structure Mesh where
  geometry : List Vec3
  position : Vec3
deriving DecidableEq, Repr

/-- The world-space vertex positions of a mesh: its geometry translated by
its `position`. -/
def Mesh.worldPoints (m : Mesh) : List Vec3 := m.geometry.map (· + m.position)

/-- The observable result of one `STLViewer.render` invocation: the final DOM
state, whether `animate()` (the render loop) was started, and the meshes
added to the scene (lights and camera are omitted; no claim concerns them). -/
structure RenderOutcome where
  world : World
  animationStarted : Bool
  sceneMeshes : List Mesh
deriving DecidableEq, Repr

/-- `STLViewer.render(container, stlUrl)` (app/utils/stl_viewer.js),
parameterised by the outcome of `loader.load`:
`container.innerHTML = ''` clears the container, the renderer's canvas is
appended, and then either the success callback runs — bounding box computed,
`mesh.position.sub(center)` applied to the fresh mesh (position starts at
zero), mesh added to the scene, `animate()` started — or the error callback
replaces the container content with the inline error indicator and no render
loop is started.  Both callbacks return normally. -/
def STLViewer.render (w : World) (load : Except String (List Vec3)) : RenderOutcome :=
  let container₀ : List DomNode := [] ++ [DomNode.canvas]
  match load with
  | Except.ok geometry =>
      let mesh : Mesh := { geometry := geometry, position := (0 : Vec3) - centerOf geometry }
      { world := { container := container₀, outside := w.outside },
        animationStarted := true,
        sceneMeshes := [mesh] }
  | Except.error _ =>
      { world := { container := [DomNode.errorIndicator], outside := w.outside },
        animationStarted := false,
        sceneMeshes := [] }

/-! ## Helper lemmas -/

/-- A flatMap whose inner lists all have length `k` multiplies the length. -/
theorem length_flatMap_const {α β : Type} (l : List α) (f : α → List β) (k : Nat)
    (hf : ∀ a ∈ l, (f a).length = k) : (l.flatMap f).length = l.length * k := by
  induction l with
  | nil => simp
  | cons a t ih =>
      simp only [List.flatMap_cons, List.length_append, List.length_cons,
        hf a (List.mem_cons_self a t), ih fun b hb => hf b (List.mem_cons_of_mem a hb)]
      ring

/-- The candidate space has exactly 972 paths. -/
theorem candidates_length : candidates.length = 972 := by
  rw [candidates, length_flatMap_const _ _ 324]
  · rfl
  intro folder _
  rw [length_flatMap_const _ _ 108]
  · rfl
  intro v _
  rw [length_flatMap_const _ _ 36]
  · rfl
  intro ty _
  rw [length_flatMap_const _ _ 6]
  · rfl
  intro p _
  simp [heights]

/-- Membership in the candidate space is exactly the naming convention. -/
theorem mem_candidates_iff (path : String) :
    path ∈ candidates ↔
      ∃ folder ∈ folders, ∃ v ∈ versions, ∃ ty ∈ types, ∃ p ∈ periods,
        ∃ h ∈ heights, path = candidatePath folder ty v p h := by
  simp [candidates, List.mem_flatMap, List.mem_map, eq_comm]

/-- Unrolling the accumulator of the `loadDesigns` fold. -/
theorem foldl_probe_step (probe : String → ProbeOutcome) (l : List String) :
    ∀ (a : List String) (b : List Design),
      l.foldl (fun acc f => (acc.1 ++ [f], match probe f with
        | ProbeOutcome.success data => acc.2 ++ [Design.ofData data f]
        | _ => acc.2)) (a, b)
      = (a ++ l, b ++ l.filterMap fun f => match probe f with
          | ProbeOutcome.success data => some (Design.ofData data f)
          | _ => none) := by
  induction l with
  | nil => intro a b; simp
  | cons x t ih =>
      intro a b
      cases hx : probe x <;>
        simp [List.foldl_cons, List.filterMap_cons, hx, ih, List.append_assoc]

/-- The `loadDesigns` run issues every candidate probe and returns exactly
the designs of the successful probes, in enumeration order. -/
theorem loadDesignsRun_eq (probe : String → ProbeOutcome) :
    loadDesignsRun probe =
      (candidates, candidates.filterMap fun f =>
        match probe f with
        | ProbeOutcome.success data => some (Design.ofData data f)
        | _ => none) := by
  rw [loadDesignsRun, foldl_probe_step]
  simp

/-- The trim loop drops oldest entries until at most 10 remain. -/
theorem trimOldest_eq_drop (l : List String) :
    trimOldest l = l.drop (l.length - 10) := by
  rw [trimOldest]
  by_cases h : 10 < l.length
  · rw [if_pos h]
    cases l with
    | nil => simp at h
    | cons a t =>
        simp only [List.tail_cons]
        rw [trimOldest_eq_drop t]
        have hlen : (a :: t).length - 10 = (t.length - 10) + 1 := by
          simp only [List.length_cons] at h ⊢
          omega
        rw [hlen, List.drop_succ_cons]
  · rw [if_neg h]
    have hz : l.length - 10 = 0 := by omega
    rw [hz, List.drop_zero]
termination_by l.length

/-- One log call appends the message and keeps the most recent at most 10. -/
theorem log_eq_drop (l : List String) (msg : String) :
    log l msg = (l ++ [msg]).drop (l.length + 1 - 10) := by
  rw [log, trimOldest_eq_drop]
  simp

/-- A log state never exceeds 10 messages after a call. -/
theorem log_length_le (l : List String) (msg : String) :
    (log l msg).length ≤ 10 := by
  rw [log_eq_drop]
  simp only [List.length_drop, List.length_append, List.length_cons, List.length_nil]
  omega

/-- Folding `log` over a message sequence from any small enough start state
keeps exactly the most recent at most 10 messages, in append order. -/
theorem foldl_log (msgs : List String) :
    ∀ l : List String, l.length ≤ 10 →
      msgs.foldl log l = (l ++ msgs).drop ((l ++ msgs).length - 10) := by
  induction msgs with
  | nil =>
      intro l hle
      have hz : l.length - 10 = 0 := by omega
      simp [hz]
  | cons m ms ih =>
      intro l hle
      rw [List.foldl_cons, ih (log l m) (log_length_le l m), log_eq_drop]
      have hd : l.length + 1 - 10 ≤ (l ++ [m]).length := by simp; omega
      rw [← List.drop_append_of_le_length hd, List.drop_drop]
      have hassoc : l ++ [m] ++ ms = l ++ m :: ms := by
        simp [List.append_assoc]
      rw [hassoc]
      congr 1
      simp only [List.length_drop, List.length_append, List.length_cons, List.length_nil]
      omega

/-- First component of a vector sum. -/
theorem Vec3.add_x (a b : Vec3) : (a + b).x = a.x + b.x := rfl

/-- Second component of a vector sum. -/
theorem Vec3.add_y (a b : Vec3) : (a + b).y = a.y + b.y := rfl

/-- Third component of a vector sum. -/
theorem Vec3.add_z (a b : Vec3) : (a + b).z = a.z + b.z := rfl

/-- First component of a vector difference. -/
theorem Vec3.sub_x (a b : Vec3) : (a - b).x = a.x - b.x := rfl

/-- Second component of a vector difference. -/
theorem Vec3.sub_y (a b : Vec3) : (a - b).y = a.y - b.y := rfl

/-- Third component of a vector difference. -/
theorem Vec3.sub_z (a b : Vec3) : (a - b).z = a.z - b.z := rfl

/-- First component of the zero vector. -/
theorem Vec3.zero_x : (0 : Vec3).x = 0 := rfl

/-- Second component of the zero vector. -/
theorem Vec3.zero_y : (0 : Vec3).y = 0 := rfl

/-- Third component of the zero vector. -/
theorem Vec3.zero_z : (0 : Vec3).z = 0 := rfl

/-- Adding a vector componentwise commutes with the componentwise minimum. -/
theorem minV_add_right (a b t : Vec3) : (a + t).minV (b + t) = a.minV b + t := by
  ext <;> simp [Vec3.minV, Vec3.add_x, Vec3.add_y, Vec3.add_z, min_add_add_right]

/-- Adding a vector componentwise commutes with the componentwise maximum. -/
theorem maxV_add_right (a b t : Vec3) : (a + t).maxV (b + t) = a.maxV b + t := by
  ext <;> simp [Vec3.maxV, Vec3.add_x, Vec3.add_y, Vec3.add_z, max_add_add_right]

/-- Translating every vertex translates the bounding box. -/
theorem computeBoundingBox_shift (t : Vec3) (vs : List Vec3) :
    computeBoundingBox (vs.map (· + t)) =
      (computeBoundingBox vs).map (shiftBox t) := by
  cases vs with
  | nil => rfl
  | cons v rest =>
      simp only [List.map_cons, computeBoundingBox, Option.map_some]
      congr 1
      have main : ∀ (rest : List Vec3) (b : Box3),
          (rest.map (· + t)).foldl (fun b w => ⟨b.lo.minV w, b.hi.maxV w⟩) (shiftBox t b) =
            shiftBox t (rest.foldl (fun b w => ⟨b.lo.minV w, b.hi.maxV w⟩) b) := by
        intro rest
        induction rest with
        | nil => intro b; rfl
        | cons w ws ih =>
            intro b
            simp only [List.map_cons, List.foldl_cons]
            rw [show (⟨(shiftBox t b).lo.minV (w + t), (shiftBox t b).hi.maxV (w + t)⟩ : Box3) =
                shiftBox t ⟨b.lo.minV w, b.hi.maxV w⟩ from ?_]
            · exact ih _
            · simp [shiftBox, minV_add_right, maxV_add_right]
      exact main rest ⟨v, v⟩

/-- Translating a box translates its center. -/
theorem getCenter_shift (t : Vec3) (b : Box3) :
    (shiftBox t b).getCenter = b.getCenter + t := by
  ext <;> simp [Box3.getCenter, shiftBox, Vec3.add_x, Vec3.add_y, Vec3.add_z] <;> ring

/-- Translating a nonempty geometry translates its bounding-box center. -/
theorem centerOf_shift (t : Vec3) (vs : List Vec3) (h : vs ≠ []) :
    centerOf (vs.map (· + t)) = centerOf vs + t := by
  cases vs with
  | nil => exact absurd rfl h
  | cons v rest =>
      rw [centerOf, centerOf, computeBoundingBox_shift]
      cases hb : computeBoundingBox (v :: rest) with
      | none => simp [computeBoundingBox] at hb
      | some b => simp [getCenter_shift]

/-! ## Claim theorems -/

/-- C4: constructing a `Design` and a `Paper` from the empty input record
(every optional field absent) succeeds — both constructors are total
functions of the input record — and yields exactly the documented defaults:
empty strings, the empty author sequence, empty parameter/extracted mappings,
and zero for `citationCount` and `score`. -/
theorem construct_from_empty_record_defaults :
    Design.ofData {} "" =
      { paperId := "", title := "", geometryType := "", parameters := [],
        filePath := "", generatedAt := "", manufacturing := "", scale := "" } ∧
    Paper.ofData {} =
      { id := "", title := "", year := "", authors := [], venue := "",
        citationCount := 0, url := "", pdf := "", extracted := [], score := 0 } := by
  constructor <;> rfl

/-- C8: `displayScore` is the empty string whenever the score is falsy — for
the rational-number model, exactly when the score is 0 — and for a nonzero
score it is the score rendered by `toFixed(1)` inside square brackets; in
particular a constructed paper with relevance score 7 displays `[7.0]` and
one with relevance score 0 displays the empty string. -/
theorem paper_displayScore_spec :
    (∀ p : Paper, p.score = 0 → p.displayScore = "") ∧
    (∀ p : Paper, p.score ≠ 0 → p.displayScore = "[" ++ toFixed1 p.score ++ "]") ∧
    (Paper.ofData { relevance_score := some 7 }).displayScore = "[7.0]" ∧
    (Paper.ofData { relevance_score := some 0 }).displayScore = "" := by
  refine ⟨fun p h => by simp [Paper.displayScore, h],
          fun p h => by simp [Paper.displayScore, h], ?_, ?_⟩
  · have h7 : (Paper.ofData { relevance_score := some 7 }).score = 7 := by
      norm_num [Paper.ofData, jsOrNum]
    norm_num [Paper.displayScore, h7, toFixed1]
    rfl
  · rfl

/-- Witness for C8 at concrete papers: the constructed paper with no score
field has score 0 and empty display, and the one with relevance score 7 shows
the bracketed `toFixed(1)` rendering. -/
theorem paper_displayScore_spec_witness :
    (Paper.ofData {}).displayScore = "" ∧
    (Paper.ofData { relevance_score := some 7 }).displayScore =
      "[" ++ toFixed1 (Paper.ofData { relevance_score := some 7 }).score ++ "]" :=
  ⟨paper_displayScore_spec.1 (Paper.ofData {}) rfl,
   paper_displayScore_spec.2.1 (Paper.ofData { relevance_score := some 7 })
     (by norm_num [Paper.ofData, jsOrNum])⟩

/-- Counterexample to C9: the constructor `this.citationCount =
data.citationCount || 0` performs no validation, so an input record carrying
`citationCount = -5` yields a constructed citation count strictly below 0,
refuting the claim that every input record produces a nonnegative integer. -/
theorem paper_citationCount_negative_counterexample :
    (Paper.ofData { citationCount := some (-5) }).citationCount < 0 := by
  norm_num [Paper.ofData, jsOrNum]

/-- C9 (amended): for every input record whose `citationCount` field is
absent or a nonnegative integer, the constructed `citationCount` is an
integer greater than or equal to 0 (the constructor passes a present nonzero
value through unchanged and defaults absent or zero values to 0). -/
theorem paper_citationCount_nonneg_of_wellformed (data : PaperData)
    (h : data.citationCount = none ∨ ∃ n : ℕ, data.citationCount = some (n : Rat)) :
    0 ≤ (Paper.ofData data).citationCount ∧
    ∃ m : ℤ, (Paper.ofData data).citationCount = (m : Rat) := by
  rcases h with h | ⟨n, h⟩
  · refine ⟨?_, 0, ?_⟩ <;> simp [Paper.ofData, jsOrNum, h]
  · by_cases hn : (n : Rat) = 0
    · refine ⟨?_, 0, ?_⟩ <;> simp [Paper.ofData, jsOrNum, h, hn]
    · refine ⟨?_, (n : ℤ), ?_⟩ <;> simp [Paper.ofData, jsOrNum, h, hn]

/-- Witness for amended C9: an input record with `citationCount = 3` yields a
nonnegative integral citation count. -/
theorem paper_citationCount_nonneg_witness :
    0 ≤ (Paper.ofData { citationCount := some 3 }).citationCount ∧
    ∃ m : ℤ, (Paper.ofData { citationCount := some 3 }).citationCount = (m : Rat) :=
  paper_citationCount_nonneg_of_wellformed _ (Or.inr ⟨3, by norm_num⟩)

/-- C1: a discovery run issues exactly `|folders| * |versions| * |types| *
|periods| * |heights| = 3 * 3 * 3 * 6 * 6 = 972` probes, and every candidate
path it enumerates has exactly the form `designs/<folder>/<type>_<first-8-
chars-of-folder>_v<version>_<period>mm_<height>mm.json` (the truncation to 8
characters is `String.take 8` inside `candidatePath`). -/
theorem discovery_probe_space (probe : String → ProbeOutcome) :
    (loadDesignsRun probe).1 = candidates ∧
    candidates.length =
      folders.length * versions.length * types.length * periods.length * heights.length ∧
    candidates.length = 972 ∧
    ∀ path ∈ candidates,
      ∃ folder ∈ folders, ∃ v ∈ versions, ∃ ty ∈ types, ∃ p ∈ periods,
        ∃ h ∈ heights, path = candidatePath folder ty v p h := by
  refine ⟨?_, ?_, candidates_length, ?_⟩
  · rw [loadDesignsRun_eq]
  · rw [candidates_length]; rfl
  · intro path hp
    exact (mem_candidates_iff path).mp hp

/-- Witness for C1: the very first enumerated path is a concrete instance of
the naming convention, with the folder component truncated to `A_3D-Pri`. -/
theorem discovery_probe_space_witness :
    ∃ folder ∈ folders, ∃ v ∈ versions, ∃ ty ∈ types, ∃ p ∈ periods,
      ∃ h ∈ heights,
        "designs/A_3D-Printed_Metallic-Free_Water-Based_Metamateria/patch_antenna_A_3D-Pri_v1_16mm_24mm.json" =
          candidatePath folder ty v p h :=
  (discovery_probe_space fun _ => ProbeOutcome.notFound).2.2.2 _
    ((mem_candidates_iff _).mpr
      ⟨"A_3D-Printed_Metallic-Free_Water-Based_Metamateria", by simp [folders],
       1, by simp [versions], "patch_antenna", by simp [types],
       16, by simp [periods], 24, by simp [heights], by
        have h1 : "A_3D-Printed_Metallic-Free_Water-Based_Metamateria".take 8 = "A_3D-Pri" := by
          decide
        have h2 : toString (1 : Nat) = "1" := by decide
        have h3 : toString (16 : Nat) = "16" := by decide
        have h4 : toString (24 : Nat) = "24" := by decide
        simp [candidatePath, h1, h2, h3, h4]⟩)

/-- C2: for every probe oracle — in particular however many probes fail with
a not-found response or a network error — the run never aborts: it issues
every candidate probe (first component), returns normally (the fold is a
total function), and its result sequence is exactly the `Design` records of
the successful probes in probe enumeration order (a `filterMap` over the
enumeration). -/
theorem discovery_skips_failures (probe : String → ProbeOutcome) :
    (loadDesignsRun probe).1 = candidates ∧
    (loadDesignsRun probe).2 =
      candidates.filterMap fun f =>
        match probe f with
        | ProbeOutcome.success data => some (Design.ofData data f)
        | _ => none := by
  rw [loadDesignsRun_eq]
  exact ⟨rfl, rfl⟩

/-- C7: a discovery run in which zero probes succeed terminates normally
(the run is a total function) with the empty result sequence, and the view
continuation surfaces the no-designs-found state rather than an error. -/
theorem discovery_all_fail_empty (probe : String → ProbeOutcome)
    (h : ∀ f data, probe f ≠ ProbeOutcome.success data) :
    (loadDesignsRun probe).2 = [] ∧
    designsViewResolve (loadDesignsRun probe).2 = ListViewState.noDesignsFound := by
  have hempty : (loadDesignsRun probe).2 = [] := by
    rw [loadDesignsRun_eq]
    simp only [List.filterMap_eq_nil_iff]
    intro f _
    cases hf : probe f with
    | success data => exact absurd hf (h f data)
    | notFound => rfl
    | networkError => rfl
  exact ⟨hempty, by rw [hempty]; rfl⟩

/-- Witness for C7: the oracle that answers not-found everywhere yields the
empty result and the no-designs-found state. -/
theorem discovery_all_fail_empty_witness :
    (loadDesignsRun fun _ => ProbeOutcome.notFound).2 = [] ∧
    designsViewResolve (loadDesignsRun fun _ => ProbeOutcome.notFound).2 =
      ListViewState.noDesignsFound :=
  discovery_all_fail_empty _ fun _ _ h => ProbeOutcome.noConfusion h

/-- C3: for every file path ending in `.json`, the derived mesh locator is
the path with the trailing `.json` replaced by `.stl` and nothing else
changed; in particular `designs/x/a_v1_20mm_30mm.json` yields exactly
`designs/x/a_v1_20mm_30mm.stl`. -/
theorem stlPath_replaces_json_suffix :
    (∀ p : String, stlPath (p ++ ".json") = p ++ ".stl") ∧
    stlPath "designs/x/a_v1_20mm_30mm.json" = "designs/x/a_v1_20mm_30mm.stl" := by
  refine ⟨fun p => ?_, by decide⟩
  have hdata : (p ++ ".json").data = p.data ++ ".json".data := String.data_append p ".json"
  have hlen : (p.data ++ ".json".data).length - 5 = p.data.length := by
    rw [List.length_append]
    rfl
  rw [stlPath, hdata, hlen, List.drop_left p.data, if_pos rfl, List.take_left p.data]
  apply String.ext
  rw [String.data_append]

/-- C5: when the mesh load fails, the error callback replaces the viewer
container's content with the inline error indicator, no render loop is
started for that invocation, and nothing outside the container is modified
for any load outcome; the embedded `render` is a total function, so no error
propagates to its caller. -/
theorem render_failure_contained (w : World) (e : String) :
    STLViewer.render w (Except.error e) =
      { world := { container := [DomNode.errorIndicator], outside := w.outside },
        animationStarted := false, sceneMeshes := [] } ∧
    ∀ load, (STLViewer.render w load).world.outside = w.outside := by
  refine ⟨rfl, fun load => ?_⟩
  cases load <;> rfl

/-- C6: when the mesh loads successfully with a nonempty geometry, the
bounding box exists, the mesh is added to the scene with its position set to
zero minus the bounding-box center, the render loop is started, and the
translated mesh's world-space geometry is centred at the origin. -/
theorem render_success_centers (w : World) (g : List Vec3) (hg : g ≠ []) :
    ∃ b, computeBoundingBox g = some b ∧
      STLViewer.render w (Except.ok g) =
        { world := { container := [DomNode.canvas], outside := w.outside },
          animationStarted := true,
          sceneMeshes := [{ geometry := g, position := (0 : Vec3) - b.getCenter }] } ∧
      centerOf (Mesh.worldPoints { geometry := g, position := (0 : Vec3) - b.getCenter }) = 0 := by
  obtain ⟨b, hb⟩ : ∃ b, computeBoundingBox g = some b := by
    cases g with
    | nil => exact absurd rfl hg
    | cons v rest => exact ⟨_, rfl⟩
  have hc : centerOf g = b.getCenter := by
    rw [centerOf, hb]
  refine ⟨b, hb, ?_, ?_⟩
  · show STLViewer.render w (Except.ok g) = _
    rw [STLViewer.render]
    simp only [hc, List.nil_append]
  · rw [Mesh.worldPoints, centerOf_shift _ _ hg, hc]
    ext <;>
      simp [Vec3.add_x, Vec3.add_y, Vec3.add_z, Vec3.sub_x, Vec3.sub_y, Vec3.sub_z,
        Vec3.zero_x, Vec3.zero_y, Vec3.zero_z]

/-- Witness for C6 with the two-vertex geometry whose bounding box is the
segment from the origin to the point with coordinates 2, 4, 6: the mesh is
translated by the negated center and ends up centred at the origin. -/
theorem render_success_centers_witness :
    ∃ b, computeBoundingBox [(⟨0, 0, 0⟩ : Vec3), ⟨2, 4, 6⟩] = some b ∧
      STLViewer.render { container := [], outside := [] }
          (Except.ok [(⟨0, 0, 0⟩ : Vec3), ⟨2, 4, 6⟩]) =
        { world := { container := [DomNode.canvas], outside := [] },
          animationStarted := true,
          sceneMeshes := [{ geometry := [(⟨0, 0, 0⟩ : Vec3), ⟨2, 4, 6⟩],
                            position := (0 : Vec3) - b.getCenter }] } ∧
      centerOf (Mesh.worldPoints { geometry := [(⟨0, 0, 0⟩ : Vec3), ⟨2, 4, 6⟩],
                                   position := (0 : Vec3) - b.getCenter }) = 0 :=
  render_success_centers { container := [], outside := [] }
    [(⟨0, 0, 0⟩ : Vec3), ⟨2, 4, 6⟩] (by simp)

/-- C10 (implicit): every `log` call appends exactly one message at the end
and then removes oldest messages first until at most 10 remain — the result
is the suffix of the appended list that keeps the most recent 10, the newest
message is never evicted (it is the last entry), and after any sequence of
`log` calls from the initially empty console the log holds exactly the most
recent at most 10 messages in append order. -/
theorem log_keeps_most_recent_ten :
    (∀ (l : List String) (msg : String),
        log l msg = (l ++ [msg]).drop (l.length + 1 - 10)) ∧
    (∀ (l : List String) (msg : String), (log l msg).getLast? = some msg) ∧
    ∀ msgs : List String,
      msgs.foldl log [] = msgs.drop (msgs.length - 10) ∧
      (msgs.foldl log []).length ≤ 10 := by
  refine ⟨log_eq_drop, fun l msg => ?_, fun msgs => ?_⟩
  · rw [log_eq_drop]
    have hle : l.length + 1 - 10 ≤ l.length := by omega
    rw [List.drop_append_of_le_length hle, List.getLast?_concat]
  · have h := foldl_log msgs [] (by simp)
    simp only [List.nil_append] at h
    refine ⟨h, ?_⟩
    rw [h]
    simp only [List.length_drop]
    omega
